import Mathlib

/-!
Verification of the music download bot (`src/main.py`) against its
natural-language specification.

The development shallowly embeds the Python source:
* `choose_format_from_formats` — the format selector (main.py lines 75–101);
* the per-user session store mutated by `search_song` and `button_callback`
  (main.py lines 145, 453–465);
* the probe/download orchestration of `handle_download`
  (main.py lines 272–435), with the external `yt_dlp` primitive, the
  filesystem and the Telegram upload modelled as oracles supplied in an
  environment record.
-/

namespace Music

/-! ## Format selector (main.py lines 75–101) -/

/-- One entry of the `formats` list returned by a yt-dlp probe:
the fields `choose_format_from_formats` reads. -/
structure MFormat where
  ext : Option String
  acodec : Option String
  vcodec : Option String
deriving DecidableEq, Repr

/-- Python truthiness for an optional string field (`if f.get('ext')`):
`None` and the empty string are falsy and excluded from the set. -/
def truthy : Option String → Option String
  | some s => if s = "" then none else some s
  | none => none

/-- The set `{f.get('ext') for f in formats if f.get('ext')}` contains `s`. -/
def hasExt (formats : List MFormat) (s : String) : Prop :=
  ∃ f ∈ formats, truthy f.ext = some s

/-- The set `{f.get('acodec') for f in formats if f.get('acodec')}` contains `s`. -/
def hasAcodec (formats : List MFormat) (s : String) : Prop :=
  ∃ f ∈ formats, truthy f.acodec = some s

instance (formats : List MFormat) (s : String) : Decidable (hasExt formats s) :=
  List.decidableBEx _ formats

instance (formats : List MFormat) (s : String) : Decidable (hasAcodec formats s) :=
  List.decidableBEx _ formats

/-- Function `choose_format_from_formats` (main.py lines 75–101): pick a yt-dlp format
selector string from the probed formats.  Preference order:
m4a ext → webm ext → opus/aac/mp3 acodec → audio-only present → default. -/
def choose_format_from_formats (formats : List MFormat) : String :=
  if formats = [] then "bestaudio/best"
  else if hasExt formats "m4a" then "bestaudio[ext=m4a]/bestaudio/best"
  else if hasExt formats "webm" then "bestaudio[ext=webm]/bestaudio/best"
  else if hasAcodec formats "opus" then "bestaudio[acodec=opus]/bestaudio/best"
  else if hasAcodec formats "aac" then "bestaudio[acodec=aac]/bestaudio/best"
  else if hasAcodec formats "mp3" then "bestaudio[acodec=mp3]/bestaudio/best"
  else if formats.any (fun f => f.vcodec == some "none") then "bestaudio/best"
  else "bestaudio/best"

/-! ## Session store (main.py lines 106–114, 145, 453–465) -/

/-- One search result as stored in `user_data[user_id]["results"]`
(`search_song`, main.py lines 133–143). -/
structure Song where
  title : String
  artist : String
  album : String
  duration : String
  thumbnail : String
  videoId : String
deriving DecidableEq, Repr

/-- The per-user session `user_data[user_id]`: a result list and a cursor.
The cursor is an `Int` because Python integers are unbounded and the
`0 ≤ index` bound is a property to prove, not a typing assumption. -/
structure Session where
  results : List Song
  index : Int
deriving DecidableEq, Repr

/-- Success path of `search_song` (main.py line 145):
`user_data[user_id] = {"results": results, "index": 0}`. -/
def recordResults (results : List Song) : Session :=
  { results := results, index := 0 }

/-- The `"next"` action of `button_callback` (main.py lines 453–456):
increment the cursor only when `index < len(results) - 1`. -/
def next_action (s : Session) : Session :=
  if s.index < (s.results.length : Int) - 1 then { s with index := s.index + 1 } else s

/-- The `"prev"` action of `button_callback` (main.py lines 458–461):
decrement the cursor only when `index > 0`. -/
def prev_action (s : Session) : Session :=
  if s.index > 0 then { s with index := s.index - 1 } else s

/-- The `"restart"` action of `button_callback` (main.py line 464):
`user_data[user_id] = {"results": [], "index": 0}`. -/
def restart_action : Session :=
  { results := [], index := 0 }

/-- The session-store invariant: when `results` is non-empty the cursor is a
valid position, `0 ≤ index < len(results)`. -/
def SessionInv (s : Session) : Prop :=
  s.results ≠ [] → 0 ≤ s.index ∧ s.index < (s.results.length : Int)

instance (s : Session) : Decidable (SessionInv s) := by
  unfold SessionInv; infer_instance

/-! ## Download orchestration (`handle_download`, main.py lines 252–435)

The external collaborators — the `yt_dlp` probe/download primitive, the
filesystem and the Telegram upload — are modelled as oracles in an `Env`
record; the working directory is the list of file names in `DOWNLOADS_DIR`. -/

/-- URL `url_primary` (main.py line 274). -/
def url_primary (videoId : String) : String :=
  "https://www.youtube.com/watch?v=" ++ videoId

/-- URL `url_music` (main.py line 275). -/
def url_music (videoId : String) : String :=
  "https://music.youtube.com/watch?v=" ++ videoId

/-- Stem `base_out` (main.py line 278): the sanitized title, an underscore, the video id. -/
def base_out (safeTitle videoId : String) : String :=
  safeTitle ++ "_" ++ videoId

/-- Whether `needle` occurs as a contiguous substring of the character list. -/
def containsSub (needle : List Char) : List Char → Bool
  | [] => needle.isEmpty
  | c :: cs => needle.isPrefixOf (c :: cs) || containsSub needle cs

/-- Python's `needle in hay` substring test on strings. -/
def strContains (hay needle : String) : Bool :=
  containsSub needle.toList hay.toList

/-- Python's `f.lower().endswith('.mp3')` (main.py line 394). -/
def endsWithMp3 (f : String) : Bool :=
  ".mp3".toList.isSuffixOf f.toLower.toList

/-- Writing one file into the directory: a file that already exists is
overwritten, not duplicated. -/
def addFile (dir : List String) (f : String) : List String :=
  if f ∈ dir then dir else dir ++ [f]

/-- Writing a batch of files into the directory, in order. -/
def addFiles (dir created : List String) : List String :=
  created.foldl addFile dir

/-- Oracle answer for one `yt_dlp` download call: whether it succeeded, the
fault message when it did not, and the files it wrote into the working
directory (partial or final artifacts). -/
structure DlOutcome where
  ok : Bool
  err : String
  created : List String
deriving DecidableEq, Repr

/-- The run environment: the probe oracle (per URL), the download oracle
(per format selector and URL), and whether the Telegram upload succeeds. -/
structure Env where
  probeR : String → Except String (List MFormat)
  dlR : String → String → DlOutcome
  uploadOk : Bool

/-- The exit path taken by one `handle_download` run. -/
inductive RunExit where
  | probeExhausted (errors : List (String × String))
  | dlExhausted (errors : List (String × String))
  | mp3Missing
  | uploaded (artifact : String)
  | faulted (reason : String)
deriving DecidableEq, Repr

/-- Terminal description of one run: exit path, final directory contents,
and the `(format, url)` of every download call issued, in order. -/
structure RunResult where
  exit : RunExit
  dir : List String
  attempts : List (String × String)
deriving DecidableEq, Repr

/-- The probe loop (main.py lines 297–307): try each URL in order; a fault
is caught, recorded as `(url, str(e))`, and the loop continues; the first
success stops the loop. -/
def probeLoop (probeR : String → Except String (List MFormat)) :
    List String → List (String × String) →
    Option (String × List MFormat) × List (String × String)
  | [], errs => (none, errs)
  | u :: us, errs =>
    match probeR u with
    | .ok info => (some (u, info), errs)
    | .error e => probeLoop probeR us (errs ++ [(u, e)])

/-- List `try_urls` (main.py line 347). -/
def try_urls (probeUsed up um : String) : List String :=
  [probeUsed] ++ (if probeUsed = up ∨ probeUsed = um then [] else [up, um])

/-- State threaded through the download loops: whether a download has
succeeded, the directory contents, the download calls issued so far, and
`download_errors` (main.py line 346). -/
structure LoopState where
  found : Bool
  dir : List String
  attempts : List (String × String)
  errors : List (String × String)
deriving DecidableEq, Repr

/-- The initial download loop (main.py lines 349–358): try the chosen
format against each URL of `try_urls`, recording `(dl_url, str(e))` into
`download_errors` on failure and stopping at the first success.  Every
call may leave files behind, success or not. -/
def dlLoop (dlR : String → String → DlOutcome) (fmt : String) :
    List String → LoopState → LoopState
  | [], st => st
  | u :: us, st =>
    let o := dlR fmt u
    let st' := { st with dir := addFiles st.dir o.created,
                         attempts := st.attempts ++ [(fmt, u)] }
    if o.ok then { st' with found := true }
    else dlLoop dlR fmt us { st' with errors := st'.errors ++ [(u, o.err)] }

/-- The fixed fallback format chain (main.py lines 362–367). -/
def fallback_chain : List String :=
  ["bestaudio[ext=m4a]/bestaudio/best", "bestaudio[ext=webm]/bestaudio/best",
   "bestaudio/best", "best"]

/-- The fallback loop (main.py lines 369–383): for each fallback format,
try `url_primary` then `url_music`, stopping at the first success.
Per-attempt faults here are only logged (`last_exc`), not added to
`download_errors`. -/
def fbLoop (dlR : String → String → DlOutcome) (up um : String) :
    List String → List String → List (String × String) →
    Bool × List String × List (String × String)
  | [], dir, atts => (false, dir, atts)
  | fmt :: fmts, dir, atts =>
    let st := dlLoop dlR fmt [up, um]
        { found := false, dir := dir, attempts := atts, errors := [] }
    if st.found then (true, st.dir, st.attempts)
    else fbLoop dlR up um fmts st.dir st.attempts

/-- Locating the mp3 (main.py lines 390–396): the expected
`{base_out}.mp3`, else the first directory entry containing `video_id`
and ending in `.mp3`. -/
def locate_mp3 (dir : List String) (baseOut videoId : String) : Option String :=
  let expected := baseOut ++ ".mp3"
  if expected ∈ dir then some expected
  else dir.find? (fun f => strContains f videoId && endsWithMp3 f)

/-- The tail of a run once a download call has succeeded (main.py lines
389–421 and the handler at 423–435): locate the mp3; if absent, report and
return with no cleanup; otherwise upload it and remove it (the `finally`
at line 413); if the upload faults, the outer handler additionally removes
every file whose name contains `video_id` (lines 429–435). -/
def finishDownload (env : Env) (videoId baseOut : String)
    (dir : List String) (atts : List (String × String)) : RunResult :=
  match locate_mp3 dir baseOut videoId with
  | none => { exit := .mp3Missing, dir := dir, attempts := atts }
  | some mp3 =>
    if env.uploadOk then
      { exit := .uploaded mp3, dir := dir.erase mp3, attempts := atts }
    else
      let dir' := (dir.erase mp3).filter (fun f => !(strContains f videoId))
      { exit := .faulted "upload failed", dir := dir', attempts := atts }

/-- One full `handle_download` run (main.py lines 272–435): probe
`url_primary` then `url_music`; on total probe failure return with the
fixed message and no download call; otherwise choose a format, run the
initial download loop, then the fallback chain; on total download failure
return with the fixed message and no cleanup; otherwise locate, upload and
clean up as `finishDownload` does. -/
def handle_download_run (env : Env) (videoId safeTitle : String)
    (dir0 : List String) : RunResult :=
  let up := url_primary videoId
  let um := url_music videoId
  let bo := base_out safeTitle videoId
  match probeLoop env.probeR [up, um] [] with
  | (none, errs) => { exit := .probeExhausted errs, dir := dir0, attempts := [] }
  | (some (usedUrl, info), _) =>
    let chosen := choose_format_from_formats info
    let st := dlLoop env.dlR chosen (try_urls usedUrl up um)
        { found := false, dir := dir0, attempts := [], errors := [] }
    if st.found then finishDownload env videoId bo st.dir st.attempts
    else
      match fbLoop env.dlR up um fallback_chain st.dir st.attempts with
      | (true, dir1, atts1) => finishDownload env videoId bo dir1 atts1
      | (false, dir1, atts1) =>
        { exit := .dlExhausted st.errors, dir := dir1, attempts := atts1 }

/-- The message surfaced to the requester on each exit path
(main.py lines 311, 386, 421, 426; `none` on success). -/
def surfacedMessage : RunExit → Option String
  | .probeExhausted _ => some "Could not probe the video formats. It may be restricted."
  | .dlExhausted _ => some "Download failed for all attempted formats. See logs."
  | .mp3Missing => some "Download completed but MP3 file not found. Try again later."
  | .uploaded _ => none
  | .faulted e => some ("Download failed: " ++ e)

/-! ## Fetch candidates -/

/-- The spec's authentication modes for one candidate. -/
inductive AuthMode where
  | noAuth
  | cookieJar
  | delegatedToken
deriving DecidableEq, Repr

/-- The spec's `FetchCandidate`: one attempt unit of the orchestrator. -/
structure FetchCandidate where
  locator : String
  usesAlternateNetworkPath : Bool
  authMode : AuthMode
deriving DecidableEq, Repr

/-- The candidate sequence `handle_download` actually attempts (main.py
lines 273–275 and 297–307): `url_primary` then `url_music`; the cookie
file, when present (lines 290–291), is attached to every probe, so every
candidate's effective auth mode is the cookie jar exactly when
`cookies.txt` exists. -/
def codeCandidates (videoId : String) (cookiesPresent : Bool) : List FetchCandidate :=
  let auth := if cookiesPresent then AuthMode.cookieJar else AuthMode.noAuth
  [ { locator := url_primary videoId, usesAlternateNetworkPath := false, authMode := auth },
    { locator := url_music videoId, usesAlternateNetworkPath := false, authMode := auth } ]

/-- The spec's `TrackDescriptor` (spec §3). -/
structure TrackDescriptor where
  title : String
  artist : String
  primaryId : Option String
  thumbnailUrl : Option String
deriving DecidableEq, Repr

/-- A mirror-endpoint direct locator for the same identifier (spec §4.1
tier 3). -/
def mirrorLocator (mirror videoId : String) : String :=
  mirror ++ "/watch?v=" ++ videoId

/-- The catalog-search locator (spec §4.1 tier 4). -/
def searchLocator (t : TrackDescriptor) : String :=
  "search: " ++ t.title ++ " " ++ t.artist ++ " official audio"

/-- Modelled from the spec: the Candidate Generator of spec §4.1.  The
mirror tier, the catalog-search tier and the delegated-authentication tier
are absent from `src/main.py` (the repository's other variants are not in
`src/`), so this definition follows the spec's tier list: direct-by-id on
the default endpoint, direct-by-id on the companion endpoint, the mirror
locators in a per-run randomized order (`shuffledMirrors`), the
catalog-search locator, and, when delegated authentication is configured,
tier 1's locator again with the delegated token.  Tiers whose prerequisite
data is absent (`primaryId`) are skipped. -/
def specCandidates (t : TrackDescriptor) (shuffledMirrors : List String)
    (delegatedConfigured : Bool) : List FetchCandidate :=
  (match t.primaryId with
   | none => []
   | some vid =>
     [⟨url_primary vid, false, .noAuth⟩, ⟨url_music vid, false, .noAuth⟩]
       ++ shuffledMirrors.map (fun m => ⟨mirrorLocator m vid, true, .noAuth⟩))
  ++ [⟨searchLocator t, false, .noAuth⟩]
  ++ (match t.primaryId, delegatedConfigured with
      | some vid, true => [⟨url_primary vid, false, .delegatedToken⟩]
      | _, _ => [])

/-! ## Concrete scenarios used to evaluate the model -/

/-- A first concrete search result. -/
def songA : Song :=
  { title := "Song A", artist := "Artist B", album := "N/A",
    duration := "3:00", thumbnail := "", videoId := "abc123" }

/-- A second concrete search result. -/
def songB : Song :=
  { title := "Song B", artist := "Artist B", album := "N/A",
    duration := "3:10", thumbnail := "", videoId := "def456" }

/-- The track descriptor of the spec's candidate-generator scenario. -/
def trackA : TrackDescriptor :=
  { title := "Song A", artist := "Artist B", primaryId := some "abc123",
    thumbnailUrl := none }

/-- Environment in which both probes fault with the reason `reason one`. -/
def envP1 : Env :=
  { probeR := fun _ => .error "reason one",
    dlR := fun _ _ => { ok := false, err := "", created := [] },
    uploadOk := true }

/-- Environment in which both probes fault with the reason `reason two`. -/
def envP2 : Env :=
  { probeR := fun _ => .error "reason two",
    dlR := fun _ _ => { ok := false, err := "", created := [] },
    uploadOk := true }

/-- Environment in which the primary probe succeeds but every download call
fails, the first one leaving a partial file `t_abc.mp3.part` behind. -/
def envLeak : Env :=
  { probeR := fun u => if u = url_primary "abc" then .ok [] else .error "x",
    dlR := fun fmt u =>
      if fmt = "bestaudio/best" ∧ u = url_primary "abc" then
        { ok := false, err := "postprocessing failed", created := ["t_abc.mp3.part"] }
      else { ok := false, err := "fragment error", created := [] },
    uploadOk := true }

/-- Environment in which everything succeeds: the first probe resolves, the
first download writes `t_abc.mp3`, and the upload goes through. -/
def envOK : Env :=
  { probeR := fun _ => .ok [],
    dlR := fun _ _ => { ok := true, err := "", created := ["t_abc.mp3"] },
    uploadOk := true }

/-- Environment in which only the companion (music) probe succeeds and every
download call fails without creating files. -/
def envUM : Env :=
  { probeR := fun u => if u = url_music "abc" then .ok [] else .error "x",
    dlR := fun _ _ => { ok := false, err := "e", created := [] },
    uploadOk := true }

/-- A probe oracle that faults on `"a"` with message `boom` and succeeds on
every other URL. -/
def prW : String → Except String (List MFormat) :=
  fun u => if u = "a" then .error "boom" else .ok []

/-! ## Theorems -/

/-- C4 (counterexample): with two results and the cursor already on the last
one (`index = 1`), the `next` action is a no-op but the `prev` action still
decrements, so `next` followed by `prev` moves the cursor from 1 to 0. -/
theorem next_prev_counterexample :
    (Session.mk [songA, songB] 1).results ≠ [] ∧
    0 ≤ (Session.mk [songA, songB] 1).index ∧
    (Session.mk [songA, songB] 1).index <
      ((Session.mk [songA, songB] 1).results.length : Int) ∧
    (prev_action (next_action (Session.mk [songA, songB] 1))).index
      ≠ (Session.mk [songA, songB] 1).index := by
  refine ⟨by simp, by norm_num, by norm_num, ?_⟩
  show (0 : Int) ≠ 1
  norm_num

/-- C4 (amended): `next` followed by `prev` restores the cursor for every
in-bounds starting cursor that is not the last position — and also at the
last position when it is position 0 (a single result). -/
theorem next_prev_amended (s : Session) (h0 : s.results ≠ [])
    (h1 : 0 ≤ s.index) (h2 : s.index < (s.results.length : Int))
    (h3 : s.index < (s.results.length : Int) - 1 ∨ s.index = 0) :
    (prev_action (next_action s)).index = s.index := by
  rcases s with ⟨rs, i⟩
  simp only at h1 h2 h3 ⊢
  unfold next_action prev_action
  by_cases hlt : i < ((rs.length : Int) - 1)
  · rw [if_pos hlt]
    have hp : ({ results := rs, index := i + 1 } : Session).index > 0 := by
      simp only; omega
    rw [if_pos hp]
    show i + 1 - 1 = i
    omega
  · rw [if_neg hlt]
    have hz : i = 0 := by omega
    subst hz
    rw [if_neg (by simp only; omega)]

/-- C4 (witness): the amended theorem applied to a two-result session with
the cursor on the first result. -/
theorem next_prev_amended_witness :
    (Session.mk [songA, songB] 0).results ≠ [] ∧
    0 ≤ (Session.mk [songA, songB] 0).index ∧
    (Session.mk [songA, songB] 0).index <
      ((Session.mk [songA, songB] 0).results.length : Int) ∧
    ((Session.mk [songA, songB] 0).index <
        ((Session.mk [songA, songB] 0).results.length : Int) - 1 ∨
      (Session.mk [songA, songB] 0).index = 0) ∧
    (prev_action (next_action (Session.mk [songA, songB] 0))).index
      = (Session.mk [songA, songB] 0).index :=
  ⟨by simp, by norm_num, by norm_num, by norm_num,
    next_prev_amended (Session.mk [songA, songB] 0) (by simp) (by norm_num)
      (by norm_num) (by norm_num)⟩

/-- C9: the session-store invariant `0 ≤ cursor < len(results)` (for
non-empty results) holds after recording new results, is preserved by the
`next` and `prev` actions, and holds after a restart. -/
theorem session_invariant_preserved (s : Session) (r : List Song)
    (h : SessionInv s) :
    SessionInv (recordResults r) ∧ SessionInv (next_action s) ∧
    SessionInv (prev_action s) ∧ SessionInv restart_action := by
  refine ⟨?_, ?_, ?_, ?_⟩
  · intro hr
    unfold recordResults at hr ⊢
    simp only at hr ⊢
    refine ⟨le_refl 0, ?_⟩
    have : 0 < r.length := List.length_pos.mpr hr
    exact_mod_cast this
  · intro hr
    unfold next_action at hr ⊢
    by_cases hlt : s.index < (s.results.length : Int) - 1
    · rw [if_pos hlt] at hr ⊢
      simp only at hr ⊢
      have := h hr
      omega
    · rw [if_neg hlt] at hr ⊢
      exact h hr
  · intro hr
    unfold prev_action at hr ⊢
    by_cases hgt : s.index > 0
    · rw [if_pos hgt] at hr ⊢
      simp only at hr ⊢
      have := h hr
      omega
    · rw [if_neg hgt] at hr ⊢
      exact h hr
  · intro hr
    exact absurd rfl hr

/-- C9 (witness): invariant preservation applied to a concrete session
holding two results with the cursor on the second. -/
theorem session_invariant_preserved_witness :
    SessionInv (Session.mk [songA, songB] 1) ∧
    (SessionInv (recordResults [songA]) ∧
     SessionInv (next_action (Session.mk [songA, songB] 1)) ∧
     SessionInv (prev_action (Session.mk [songA, songB] 1)) ∧
     SessionInv restart_action) :=
  ⟨by decide, session_invariant_preserved (Session.mk [songA, songB] 1) [songA]
      (by decide)⟩

/-- C5: whenever the probed format list is non-empty and some format has
ext `m4a`, the selector returns the m4a-restricted expression with the
best-audio fallback, whatever the acodec fields are. -/
theorem m4a_selector (formats : List MFormat) (hne : formats ≠ [])
    (hm4a : ∃ f ∈ formats, f.ext = some "m4a") :
    choose_format_from_formats formats = "bestaudio[ext=m4a]/bestaudio/best" := by
  have hx : hasExt formats "m4a" := by
    obtain ⟨f, hf, he⟩ := hm4a
    exact ⟨f, hf, by rw [he]; rfl⟩
  unfold choose_format_from_formats
  rw [if_neg hne, if_pos hx]

/-- C10: the format selector depends only on which formats occur in its
input — membership-equivalent lists (in particular permutations and lists
with duplicated elements) yield the same result — and the result is always
one of six fixed selector strings, each ending in the best-audio fallback. -/
theorem format_selector_membership_invariant (l₁ l₂ : List MFormat)
    (h : ∀ f, f ∈ l₁ ↔ f ∈ l₂) :
    choose_format_from_formats l₁ = choose_format_from_formats l₂ ∧
    choose_format_from_formats l₁ ∈
      ["bestaudio/best", "bestaudio[ext=m4a]/bestaudio/best",
       "bestaudio[ext=webm]/bestaudio/best",
       "bestaudio[acodec=opus]/bestaudio/best",
       "bestaudio[acodec=aac]/bestaudio/best",
       "bestaudio[acodec=mp3]/bestaudio/best"] := by
  have hnil : (l₁ = []) ↔ (l₂ = []) := by
    simp only [List.eq_nil_iff_forall_not_mem]
    exact ⟨fun hn a ha => hn a ((h a).2 ha), fun hn a ha => hn a ((h a).1 ha)⟩
  have hext : ∀ s, hasExt l₁ s ↔ hasExt l₂ s := by
    intro s
    constructor
    · rintro ⟨f, hf, hs⟩; exact ⟨f, (h f).1 hf, hs⟩
    · rintro ⟨f, hf, hs⟩; exact ⟨f, (h f).2 hf, hs⟩
  have hac : ∀ s, hasAcodec l₁ s ↔ hasAcodec l₂ s := by
    intro s
    constructor
    · rintro ⟨f, hf, hs⟩; exact ⟨f, (h f).1 hf, hs⟩
    · rintro ⟨f, hf, hs⟩; exact ⟨f, (h f).2 hf, hs⟩
  have hany : (l₁.any fun f => f.vcodec == some "none")
      = (l₂.any fun f => f.vcodec == some "none") := by
    rcases ha : l₂.any fun f => f.vcodec == some "none" with _ | _
    · simp only [List.any_eq_false] at ha ⊢
      exact fun f hf => ha f ((h f).1 hf)
    · simp only [List.any_eq_true] at ha ⊢
      obtain ⟨f, hf, hv⟩ := ha
      exact ⟨f, (h f).2 hf, hv⟩
  constructor
  · unfold choose_format_from_formats
    exact if_congr hnil rfl (if_congr (hext "m4a") rfl (if_congr (hext "webm")
      rfl (if_congr (hac "opus") rfl (if_congr (hac "aac") rfl
      (if_congr (hac "mp3") rfl (if_congr (by rw [hany]) rfl rfl))))))
  · unfold choose_format_from_formats
    split_ifs <;> simp

/-- C10 (witness): invariance and membership evaluated on a concrete pair
of membership-equivalent lists — a permutation with a duplicated element. -/
theorem format_selector_membership_invariant_witness :
    (∀ f, f ∈ [MFormat.mk (some "webm") (some "opus") none,
               MFormat.mk none (some "mp3") (some "none")] ↔
          f ∈ [MFormat.mk none (some "mp3") (some "none"),
               MFormat.mk (some "webm") (some "opus") none,
               MFormat.mk (some "webm") (some "opus") none]) ∧
    (choose_format_from_formats [MFormat.mk (some "webm") (some "opus") none,
        MFormat.mk none (some "mp3") (some "none")]
      = choose_format_from_formats [MFormat.mk none (some "mp3") (some "none"),
          MFormat.mk (some "webm") (some "opus") none,
          MFormat.mk (some "webm") (some "opus") none] ∧
     choose_format_from_formats [MFormat.mk (some "webm") (some "opus") none,
        MFormat.mk none (some "mp3") (some "none")] ∈
       ["bestaudio/best", "bestaudio[ext=m4a]/bestaudio/best",
        "bestaudio[ext=webm]/bestaudio/best",
        "bestaudio[acodec=opus]/bestaudio/best",
        "bestaudio[acodec=aac]/bestaudio/best",
        "bestaudio[acodec=mp3]/bestaudio/best"]) :=
  ⟨by intro f; constructor <;> intro hf <;> simp only [List.mem_cons,
      List.not_mem_nil, or_false] at hf ⊢ <;> tauto,
    format_selector_membership_invariant
      [MFormat.mk (some "webm") (some "opus") none,
       MFormat.mk none (some "mp3") (some "none")]
      [MFormat.mk none (some "mp3") (some "none"),
       MFormat.mk (some "webm") (some "opus") none,
       MFormat.mk (some "webm") (some "opus") none]
      (by intro f; constructor <;> intro hf <;> simp only [List.mem_cons,
        List.not_mem_nil, or_false] at hf ⊢ <;> tauto)⟩

/-- C3: for the scenario track (title `Song A`, artist `Artist B`,
primaryId `abc123`), two configured mirrors and no delegated
authentication, the spec-modelled Candidate Generator yields exactly 5
candidates: direct-by-id on the default endpoint, direct-by-id on the
companion endpoint, the two mirror candidates in the per-run order, then
the catalog-search candidate. -/
theorem spec_candidates_scenario (shuffled : List String)
    (hsh : shuffled = ["m1", "m2"] ∨ shuffled = ["m2", "m1"]) :
    (specCandidates trackA shuffled false).length = 5 ∧
    (specCandidates trackA shuffled false).head? =
      some (FetchCandidate.mk (url_primary "abc123") false AuthMode.noAuth) ∧
    (specCandidates trackA shuffled false)[1]? =
      some (FetchCandidate.mk (url_music "abc123") false AuthMode.noAuth) ∧
    (((specCandidates trackA shuffled false)[2]? =
        some (FetchCandidate.mk (mirrorLocator "m1" "abc123") true AuthMode.noAuth) ∧
      (specCandidates trackA shuffled false)[3]? =
        some (FetchCandidate.mk (mirrorLocator "m2" "abc123") true AuthMode.noAuth)) ∨
     ((specCandidates trackA shuffled false)[2]? =
        some (FetchCandidate.mk (mirrorLocator "m2" "abc123") true AuthMode.noAuth) ∧
      (specCandidates trackA shuffled false)[3]? =
        some (FetchCandidate.mk (mirrorLocator "m1" "abc123") true AuthMode.noAuth))) ∧
    (specCandidates trackA shuffled false)[4]? =
      some (FetchCandidate.mk (searchLocator trackA) false AuthMode.noAuth) := by
  rcases hsh with h | h <;> subst h
  · exact ⟨rfl, rfl, rfl, Or.inl ⟨rfl, rfl⟩, rfl⟩
  · exact ⟨rfl, rfl, rfl, Or.inr ⟨rfl, rfl⟩, rfl⟩

/-- C3 (witness): the scenario theorem applied to the mirror order
`["m1", "m2"]`. -/
theorem spec_candidates_scenario_witness :
    ((["m1", "m2"] : List String) = ["m1", "m2"] ∨
      (["m1", "m2"] : List String) = ["m2", "m1"]) ∧
    (specCandidates trackA ["m1", "m2"] false).length = 5 :=
  ⟨Or.inl rfl, (spec_candidates_scenario ["m1", "m2"] (Or.inl rfl)).1⟩

/-- C6 (counterexample): when the cookie file is present, every probe —
including the first candidate, the direct-by-id locator on the default
endpoint — runs with the cookie jar attached, not with authMode `None`. -/
theorem first_candidate_auth_counterexample :
    (codeCandidates "abc123" true).head? =
      some (FetchCandidate.mk (url_primary "abc123") false AuthMode.cookieJar) ∧
    AuthMode.cookieJar ≠ AuthMode.noAuth :=
  ⟨rfl, by decide⟩

/-- C6 (amended): for every track with a primaryId, the first candidate
attempted is the direct-by-id locator on the default endpoint
`www.youtube.com`; its auth mode is `None` exactly when no cookie file is
configured, and the cookie jar otherwise (the cookie file applies to every
candidate uniformly). -/
theorem first_candidate_amended (videoId : String) (cookiesPresent : Bool) :
    (codeCandidates videoId cookiesPresent).head? =
      some (FetchCandidate.mk (url_primary videoId) false
        (if cookiesPresent then AuthMode.cookieJar else AuthMode.noAuth)) ∧
    url_primary videoId = "https://www.youtube.com/watch?v=" ++ videoId ∧
    (codeCandidates videoId cookiesPresent).map FetchCandidate.locator =
      [url_primary videoId, url_music videoId] :=
  ⟨rfl, rfl, rfl⟩

/-- C5 (witness): the m4a rule applied to a concrete single-format list
whose acodec is an unrelated codec. -/
theorem m4a_selector_witness :
    ([MFormat.mk (some "m4a") (some "vorbis") (some "none")] ≠
      ([] : List MFormat)) ∧
    (∃ f ∈ [MFormat.mk (some "m4a") (some "vorbis") (some "none")],
      f.ext = some "m4a") ∧
    choose_format_from_formats [MFormat.mk (some "m4a") (some "vorbis") (some "none")]
      = "bestaudio[ext=m4a]/bestaudio/best" :=
  ⟨by decide, by decide,
    m4a_selector [MFormat.mk (some "m4a") (some "vorbis") (some "none")]
      (by decide) (by decide)⟩

/-- If the probe loop ends with no resolution, then every URL's probe
faulted: no single probe failure is fatal on its own. -/
theorem probeLoop_none_all_fail (probeR : String → Except String (List MFormat)) :
    ∀ (us : List String) (errs : List (String × String)),
      (probeLoop probeR us errs).1 = none →
      ∀ v ∈ us, ∃ msg, probeR v = .error msg := by
  intro us
  induction us with
  | nil =>
    intro errs hnone v hv
    exact absurd hv (List.not_mem_nil v)
  | cons u us ih =>
    intro errs hnone v hv
    unfold probeLoop at hnone
    cases hpu : probeR u with
    | error e =>
      rw [hpu] at hnone
      rcases List.mem_cons.mp hv with rfl | hv2
      · exact ⟨e, hpu⟩
      · exact ih _ hnone v hv2
    | ok info =>
      rw [hpu] at hnone
      simp at hnone

/-- C7: a probe fault is caught by the loop, recorded as `(url, message)`,
and the loop simply continues with the remaining candidates; the run only
fails when every candidate's probe has faulted, so no single probe fault
is fatal by itself. -/
theorem probe_fault_recovered (probeR : String → Except String (List MFormat))
    (us : List String) (u : String) (errs : List (String × String)) (e : String)
    (hfault : probeR u = .error e) :
    probeLoop probeR (u :: us) errs = probeLoop probeR us (errs ++ [(u, e)]) ∧
    ((probeLoop probeR (u :: us) errs).1 = none →
      ∀ v ∈ u :: us, ∃ msg, probeR v = .error msg) := by
  constructor
  · simp only [probeLoop, hfault]
  · exact probeLoop_none_all_fail probeR (u :: us) errs

/-- C7 (witness): the recovery theorem applied to a concrete oracle that
faults on `"a"` with message `boom`. -/
theorem probe_fault_recovered_witness :
    prW "a" = .error "boom" ∧
    probeLoop prW ["a", "b"] [] = probeLoop prW ["b"] [("a", "boom")] :=
  ⟨rfl, (probe_fault_recovered prW ["b"] "a" [] "boom" rfl).1⟩

/-- C2 (counterexample): two runs whose probes exhaust with different last
failure reasons surface the identical fixed message, so the failure result
surfaced to the caller carries neither the attempt count nor the last
failure reason. -/
theorem exhausted_surface_counterexample :
    (handle_download_run envP1 "abc" "t" []).exit =
      RunExit.probeExhausted
        [(url_primary "abc", "reason one"), (url_music "abc", "reason one")] ∧
    (handle_download_run envP2 "abc" "t" []).exit =
      RunExit.probeExhausted
        [(url_primary "abc", "reason two"), (url_music "abc", "reason two")] ∧
    (handle_download_run envP1 "abc" "t" []).exit ≠
      (handle_download_run envP2 "abc" "t" []).exit ∧
    surfacedMessage (handle_download_run envP1 "abc" "t" []).exit =
      surfacedMessage (handle_download_run envP2 "abc" "t" []).exit := by
  refine ⟨rfl, rfl, ?_, rfl⟩
  intro hcontra
  rw [show (handle_download_run envP1 "abc" "t" []).exit =
      RunExit.probeExhausted
        [(url_primary "abc", "reason one"), (url_music "abc", "reason one")]
      from rfl,
    show (handle_download_run envP2 "abc" "t" []).exit =
      RunExit.probeExhausted
        [(url_primary "abc", "reason two"), (url_music "abc", "reason two")]
      from rfl] at hcontra
  simp [url_primary, url_music] at hcontra

/-- C2 (amended): when every probe faults, the failure surfaced to the
requester is a fixed message carrying neither count nor reason; the
diagnostic log record instead carries the whole probe-error list, whose
length equals the number of candidates attempted and whose last entry
holds the last failure reason. -/
theorem exhausted_log_carries_count_and_reason (env : Env)
    (videoId safeTitle : String) (dir0 : List String) (e1 e2 : String)
    (cookiesPresent : Bool)
    (h1 : env.probeR (url_primary videoId) = .error e1)
    (h2 : env.probeR (url_music videoId) = .error e2) :
    (handle_download_run env videoId safeTitle dir0).exit =
      RunExit.probeExhausted
        [(url_primary videoId, e1), (url_music videoId, e2)] ∧
    surfacedMessage (handle_download_run env videoId safeTitle dir0).exit =
      some "Could not probe the video formats. It may be restricted." ∧
    [(url_primary videoId, e1), (url_music videoId, e2)].length =
      (codeCandidates videoId cookiesPresent).length ∧
    [(url_primary videoId, e1), (url_music videoId, e2)].getLast? =
      some (url_music videoId, e2) := by
  have hexit : (handle_download_run env videoId safeTitle dir0).exit =
      RunExit.probeExhausted
        [(url_primary videoId, e1), (url_music videoId, e2)] := by
    unfold handle_download_run
    simp only [probeLoop, h1, h2, List.nil_append, List.singleton_append]
  refine ⟨hexit, ?_, rfl, rfl⟩
  rw [hexit]
  rfl

/-- C2 (witness): the amended theorem applied to the environment where
both probes fault with `reason one`. -/
theorem exhausted_log_witness :
    envP1.probeR (url_primary "abc") = Except.error "reason one" ∧
    envP1.probeR (url_music "abc") = Except.error "reason one" ∧
    (handle_download_run envP1 "abc" "t" []).exit =
      RunExit.probeExhausted
        [(url_primary "abc", "reason one"), (url_music "abc", "reason one")] :=
  ⟨rfl, rfl,
    (exhausted_log_carries_count_and_reason envP1 "abc" "t" [] "reason one"
      "reason one" false rfl rfl).1⟩

/-- C8 (counterexample): with the companion (music) URL as the resolved
locator — the primary probe faults — the fallback chain still attempts
each fallback selector against the primary URL first, i.e. against a
locator different from the resolved one, and when the chain is exhausted
the run terminates instead of resuming with a further candidate. -/
theorem fallback_locator_counterexample :
    envUM.probeR (url_music "abc") = Except.ok [] ∧
    ("bestaudio[ext=m4a]/bestaudio/best", url_primary "abc") ∈
      (handle_download_run envUM "abc" "t" []).attempts ∧
    url_primary "abc" ≠ url_music "abc" ∧
    (handle_download_run envUM "abc" "t" []).exit =
      RunExit.dlExhausted [(url_music "abc", "e")] := by
  refine ⟨rfl, ?_, ?_, rfl⟩
  · rw [show (handle_download_run envUM "abc" "t" []).attempts =
        [("bestaudio/best", url_music "abc"),
         ("bestaudio[ext=m4a]/bestaudio/best", url_primary "abc"),
         ("bestaudio[ext=m4a]/bestaudio/best", url_music "abc"),
         ("bestaudio[ext=webm]/bestaudio/best", url_primary "abc"),
         ("bestaudio[ext=webm]/bestaudio/best", url_music "abc"),
         ("bestaudio/best", url_primary "abc"),
         ("bestaudio/best", url_music "abc"),
         ("best", url_primary "abc"),
         ("best", url_music "abc")] from rfl]
    simp
  · decide

/-- C8 (amended): whichever URL the probe resolved on — the primary URL
(its probe succeeded) or the companion music URL (the primary probe
faulted first) — when the fetch with the chosen selector fails and every
further download call fails too, the orchestrator retries the fixed
selector chain m4a → webm → best-audio → best, each selector attempted
against the primary URL and then the music URL (not only the resolved
locator), and when the chain is exhausted the run terminates with the
fixed download-failure message — no further candidate is attempted. -/
theorem fallback_chain_amended (env : Env) (videoId safeTitle : String)
    (dir0 : List String) (info : List MFormat) (resolved : String)
    (hres : env.probeR (url_primary videoId) = Except.ok info ∧
        resolved = url_primary videoId ∨
      (∃ e0, env.probeR (url_primary videoId) = Except.error e0) ∧
        env.probeR (url_music videoId) = Except.ok info ∧
        resolved = url_music videoId)
    (hdl : ∀ fmt u, (env.dlR fmt u).ok = false) :
    (handle_download_run env videoId safeTitle dir0).attempts =
      [(choose_format_from_formats info, resolved),
       ("bestaudio[ext=m4a]/bestaudio/best", url_primary videoId),
       ("bestaudio[ext=m4a]/bestaudio/best", url_music videoId),
       ("bestaudio[ext=webm]/bestaudio/best", url_primary videoId),
       ("bestaudio[ext=webm]/bestaudio/best", url_music videoId),
       ("bestaudio/best", url_primary videoId),
       ("bestaudio/best", url_music videoId),
       ("best", url_primary videoId),
       ("best", url_music videoId)] ∧
    (handle_download_run env videoId safeTitle dir0).exit =
      RunExit.dlExhausted [(resolved,
        (env.dlR (choose_format_from_formats info) resolved).err)] ∧
    surfacedMessage (handle_download_run env videoId safeTitle dir0).exit =
      some "Download failed for all attempted formats. See logs." := by
  rcases hres with ⟨hp, rfl⟩ | ⟨⟨e0, hp⟩, hm, rfl⟩
  · unfold handle_download_run
    simp only [probeLoop, hp, List.nil_append]
    simp only [try_urls, dlLoop, fbLoop, fallback_chain, hdl, Bool.false_eq_true,
      if_false, eq_self_iff_true, true_or, or_true, if_true, List.append_nil,
      List.nil_append, List.singleton_append, ite_false, ite_true]
    trivial
  · unfold handle_download_run
    simp only [probeLoop, hp, hm, List.nil_append]
    simp only [try_urls, dlLoop, fbLoop, fallback_chain, hdl, Bool.false_eq_true,
      if_false, eq_self_iff_true, true_or, or_true, if_true, List.append_nil,
      List.nil_append, List.singleton_append, ite_false, ite_true]
    trivial

/-- C8 (witness): the amended fallback theorem applied to the concrete
environment where only the companion probe succeeds and every download
call fails. -/
theorem fallback_chain_amended_witness :
    (handle_download_run envUM "abc" "t" []).attempts =
      [(choose_format_from_formats [], url_music "abc"),
       ("bestaudio[ext=m4a]/bestaudio/best", url_primary "abc"),
       ("bestaudio[ext=m4a]/bestaudio/best", url_music "abc"),
       ("bestaudio[ext=webm]/bestaudio/best", url_primary "abc"),
       ("bestaudio[ext=webm]/bestaudio/best", url_music "abc"),
       ("bestaudio/best", url_primary "abc"),
       ("bestaudio/best", url_music "abc"),
       ("best", url_primary "abc"),
       ("best", url_music "abc")] :=
  (fallback_chain_amended envUM "abc" "t" [] [] (url_music "abc")
    (Or.inr ⟨⟨"x", rfl⟩, rfl, rfl⟩) (fun _ _ => rfl)).1

/-- C1 (counterexample): on the download-exhaustion exit a partial file
containing the videoId survives (the claim demands zero files on failure),
and on the success exit the uploaded artifact itself is deleted (the claim
demands exactly the returned artifact to remain). -/
theorem cleanup_claim_counterexample :
    (handle_download_run envLeak "abc" "t" []).exit =
      RunExit.dlExhausted [(url_primary "abc", "postprocessing failed")] ∧
    (handle_download_run envLeak "abc" "t" []).dir.filter
      (fun f => strContains f "abc") = ["t_abc.mp3.part"] ∧
    (handle_download_run envOK "abc" "t" []).exit =
      RunExit.uploaded "t_abc.mp3" ∧
    "t_abc.mp3" ∉ (handle_download_run envOK "abc" "t" []).dir := by
  refine ⟨rfl, rfl, rfl, ?_⟩
  rw [show (handle_download_run envOK "abc" "t" []).dir = [] from rfl]
  exact List.not_mem_nil _

/-- Writing one file preserves the absence of duplicate directory
entries. -/
theorem addFile_nodup (dir : List String) (f : String) (h : dir.Nodup) :
    (addFile dir f).Nodup := by
  unfold addFile
  split_ifs with hf
  · exact h
  · rw [List.nodup_append]
    refine ⟨h, List.nodup_singleton f, ?_⟩
    intro a ha hb
    rw [List.mem_singleton] at hb
    subst hb
    exact hf ha

/-- Writing a batch of files preserves the absence of duplicate directory
entries. -/
theorem addFiles_nodup (created : List String) :
    ∀ dir : List String, dir.Nodup → (addFiles dir created).Nodup := by
  induction created with
  | nil => intro dir h; exact h
  | cons c cs ih =>
    intro dir h
    unfold addFiles at ih ⊢
    rw [List.foldl_cons]
    exact ih (addFile dir c) (addFile_nodup dir c h)

/-- The initial download loop preserves the absence of duplicate directory
entries. -/
theorem dlLoop_nodup (dlR : String → String → DlOutcome) (fmt : String) :
    ∀ (us : List String) (st : LoopState), st.dir.Nodup →
      (dlLoop dlR fmt us st).dir.Nodup := by
  intro us
  induction us with
  | nil => intro st h; exact h
  | cons u us ih =>
    intro st h
    simp only [dlLoop]
    split_ifs with ho
    · exact addFiles_nodup _ _ h
    · exact ih _ (addFiles_nodup _ _ h)

/-- The fallback loop preserves the absence of duplicate directory
entries. -/
theorem fbLoop_nodup (dlR : String → String → DlOutcome) (up um : String) :
    ∀ (fmts dir : List String) (atts : List (String × String)),
      dir.Nodup → (fbLoop dlR up um fmts dir atts).2.1.Nodup := by
  intro fmts
  induction fmts with
  | nil => intro dir atts h; exact h
  | cons fmt fmts ih =>
    intro dir atts h
    simp only [fbLoop]
    have hst := dlLoop_nodup dlR fmt [up, um]
      { found := false, dir := dir, attempts := atts, errors := [] } h
    split_ifs with hf
    · exact hst
    · exact ih _ _ hst

/-- Filtering with a predicate after keeping only its complement yields
nothing. -/
theorem filter_not_filter (p : String → Bool) (l : List String) :
    (l.filter fun f => !(p f)).filter p = [] := by
  simp [List.filter_filter]

/-- Exit-path behaviour of the post-download tail: the unexpected-fault
exit leaves no file containing the videoId, the probe-exhaustion exit is
impossible here, and on the success exit the uploaded artifact has been
removed from the directory. -/
theorem finishDownload_spec (env : Env) (videoId bo : String)
    (dir : List String) (atts : List (String × String)) (hnd : dir.Nodup) :
    (∀ msg, (finishDownload env videoId bo dir atts).exit = RunExit.faulted msg →
      (finishDownload env videoId bo dir atts).dir.filter
        (fun f => strContains f videoId) = []) ∧
    (∀ errs, (finishDownload env videoId bo dir atts).exit ≠
      RunExit.probeExhausted errs) ∧
    (∀ a, (finishDownload env videoId bo dir atts).exit = RunExit.uploaded a →
      a ∉ (finishDownload env videoId bo dir atts).dir) := by
  rcases hlo : locate_mp3 dir bo videoId with _ | mp3
  · have hfd : finishDownload env videoId bo dir atts =
        { exit := RunExit.mp3Missing, dir := dir, attempts := atts } := by
      unfold finishDownload
      rw [hlo]
    rw [hfd]
    exact ⟨fun msg hmsg => by simp at hmsg, fun errs herrs => by simp at herrs,
      fun a ha => by simp at ha⟩
  · by_cases hup : env.uploadOk
    · have hfd : finishDownload env videoId bo dir atts =
          { exit := RunExit.uploaded mp3, dir := dir.erase mp3, attempts := atts } := by
        unfold finishDownload
        rw [hlo]
        simp only [if_pos hup]
      rw [hfd]
      refine ⟨fun msg hmsg => by simp at hmsg, fun errs herrs => by simp at herrs,
        fun a ha => ?_⟩
      simp only [RunExit.uploaded.injEq] at ha
      subst ha
      exact List.Nodup.not_mem_erase hnd
    · have hfd : finishDownload env videoId bo dir atts =
          { exit := RunExit.faulted "upload failed",
            dir := (dir.erase mp3).filter (fun f => !(strContains f videoId)),
            attempts := atts } := by
        unfold finishDownload
        rw [hlo]
        simp only [if_neg hup]
      rw [hfd]
      refine ⟨fun msg hmsg => ?_, fun errs herrs => by simp at herrs,
        fun a ha => by simp at ha⟩
      exact filter_not_filter (fun f => strContains f videoId) (dir.erase mp3)

/-- C1 (amended): the unexpected-fault exit deletes every file whose name
contains the videoId; the probe-exhaustion exit leaves the working
directory untouched; and the success exit removes the uploaded artifact
itself, so it does not remain.  (The download-exhaustion and
artifact-missing exits perform no cleanup and may leave files containing
the videoId behind.) -/
theorem cleanup_amended (env : Env) (videoId safeTitle : String)
    (dir0 : List String) (hnd : dir0.Nodup) :
    (∀ msg, (handle_download_run env videoId safeTitle dir0).exit =
        RunExit.faulted msg →
      (handle_download_run env videoId safeTitle dir0).dir.filter
        (fun f => strContains f videoId) = []) ∧
    (∀ errs, (handle_download_run env videoId safeTitle dir0).exit =
        RunExit.probeExhausted errs →
      (handle_download_run env videoId safeTitle dir0).dir = dir0) ∧
    (∀ a, (handle_download_run env videoId safeTitle dir0).exit =
        RunExit.uploaded a →
      a ∉ (handle_download_run env videoId safeTitle dir0).dir) := by
  rcases hpl : probeLoop env.probeR
      [url_primary videoId, url_music videoId] [] with ⟨o, perrs⟩
  rcases o with _ | ⟨u, info⟩
  · simp only [handle_download_run, hpl]
    refine ⟨fun msg hmsg => by simp at hmsg, ?_, fun a ha => by simp at ha⟩
    first
    | exact fun errs herrs => rfl
    | exact fun errs herrs => True.intro
  · simp only [handle_download_run, hpl]
    generalize hst : dlLoop env.dlR (choose_format_from_formats info)
        (try_urls u (url_primary videoId) (url_music videoId))
        { found := false, dir := dir0, attempts := [], errors := [] } = st0
    have hstnd : st0.dir.Nodup := by
      rw [← hst]
      exact dlLoop_nodup _ _ _ _ hnd
    by_cases hf : st0.found = true
    · simp only [hf, if_true]
      obtain ⟨f1, f2, f3⟩ := finishDownload_spec env videoId
        (base_out safeTitle videoId) st0.dir st0.attempts hstnd
      exact ⟨f1, fun errs herrs => absurd herrs (f2 errs), f3⟩
    · have hf2 : st0.found = false := by
        rcases hb : st0.found with _ | _
        · rfl
        · exact absurd hb hf
      simp only [hf2, Bool.false_eq_true, if_false]
      rcases hfb : fbLoop env.dlR (url_primary videoId) (url_music videoId)
          fallback_chain st0.dir st0.attempts with ⟨fb, dir1, atts1⟩
      have hd1 : dir1.Nodup := by
        have h2 := fbLoop_nodup env.dlR (url_primary videoId) (url_music videoId)
          fallback_chain st0.dir st0.attempts hstnd
        rw [hfb] at h2
        exact h2
      rcases fb with _ | _
      · exact ⟨fun msg hmsg => by simp at hmsg, fun errs herrs => by simp at herrs,
          fun a ha => by simp at ha⟩
      · obtain ⟨f1, f2, f3⟩ := finishDownload_spec env videoId
          (base_out safeTitle videoId) dir1 atts1 hd1
        exact ⟨f1, fun errs herrs => absurd herrs (f2 errs), f3⟩

/-- C1 (witness): the amended cleanup theorem applied to the all-success
environment starting from an empty directory: the uploaded artifact does
not remain. -/
theorem cleanup_amended_witness :
    ([] : List String).Nodup ∧
    "t_abc.mp3" ∉ (handle_download_run envOK "abc" "t" []).dir :=
  ⟨List.nodup_nil,
    (cleanup_amended envOK "abc" "t" [] List.nodup_nil).2.2 "t_abc.mp3" rfl⟩

end Music
